import Mathlib

/-!
Verification of `convert_paddle_to_mnn.py`: a conversion pipeline that drives
two external tools (paddle2onnx, mnnconvert) over model directories, with
format auto-detection, idempotent output-existence checks, per-stage failure
recovery, and batch aggregation.

The script is embedded shallowly:
* a model directory is its set of file names plus the parse result of its
  `inference.yml` (the only file whose content the script reads);
* the two external tools are an environment value giving each invocation's
  outcome (exit 0, nonzero exit, or an exception raised while invoking);
  a tool that exits 0 is taken to have written its declared output file;
* each stage function returns its Python boolean together with the updated
  directory, whether an external process was invoked, and the lines written
  to `ppocr_keys.txt` (for the dictionary stage);
* `convert_model` returns the Python result dict (an insertion-ordered
  association list, as Python dicts are) plus a trace recording which stage
  functions were called and with which filenames;
* the batch loop of `main` is a fold over the sorted directory list, with the
  per-model body abstracted as an `Except`-valued function so that the
  `try/except` isolation can be stated for an arbitrary raising model.
-/

set_option autoImplicit false
set_option linter.unusedVariables false

namespace PaddleToMnn

/-- Outcome of one `subprocess.run` call: exit code 0, nonzero exit code with
the tool's stderr, or an exception raised by the invocation machinery itself
(caught by the stage's `except` clause). -/
inductive ToolOutcome where
  | ok
  | fail (stderrLine : String)
  | exc (msg : String)
  deriving DecidableEq, Repr

/-- The external collaborators for one model: the outcome each tool would
produce if invoked in that directory. -/
structure Env where
  paddle2onnx : ToolOutcome
  mnnconvert : ToolOutcome
  deriving DecidableEq, Repr

/-- A YAML value, as produced by `yaml.safe_load` on `inference.yml`. -/
inductive Yaml where
  | null
  | bool (b : Bool)
  | int (n : Int)
  | str (s : String)
  | list (items : List Yaml)
  | map (entries : List (String × Yaml))

/-- A model directory: the file names present in it (in discovery order, which
is the order `Path.glob` enumerates them) and the result of reading and
parsing `inference.yml` (`none` models an unreadable or unparsable file, whose
exception the dictionary stage catches). -/
structure Dir where
  files : List String
  yml : Option Yaml

/-- `(model_path / name).exists()`. -/
def fileExists (d : Dir) (name : String) : Bool :=
  d.files.contains name

/-- Whether `tail` is a suffix of `s` (spelled on the character lists so
that it evaluates inside the kernel). -/
def strEndsWith (s tail : String) : Bool :=
  decide (tail.data.length ≤ s.data.length) &&
    s.data.drop (s.data.length - tail.data.length) == tail.data

/-- `model_path.glob("*.onnx")`, in discovery order: the files whose name
matches `*.onnx`, i.e. ends with `.onnx`. -/
def globOnnx (d : Dir) : List String :=
  d.files.filter (fun n => strEndsWith n ".onnx")

/-- Result of one stage function: the Python return value, the directory
after any file the stage (or its tool) wrote, whether an external process was
invoked, and the lines written to `ppocr_keys.txt` when the dictionary stage
wrote them. -/
structure StageResult where
  succeeded : Bool
  dir : Dir
  invoked : Bool
  written : Option (List String)

/-- `convert_paddle_to_onnx(model_dir)`: precondition check on
`inference.json` and `inference.pdiparams`, idempotence check on
`model.onnx`, then the `paddle2onnx` invocation; exit 0 writes `model.onnx`,
a nonzero exit or an invocation exception yields `False`. -/
def convert_paddle_to_onnx (env : Env) (model_dir : Dir) : StageResult :=
  if !(fileExists model_dir "inference.json") || !(fileExists model_dir "inference.pdiparams") then
    ⟨false, model_dir, false, none⟩
  else if fileExists model_dir "model.onnx" then
    ⟨true, model_dir, false, none⟩
  else
    match env.paddle2onnx with
    | .ok => ⟨true, { model_dir with files := model_dir.files ++ ["model.onnx"] }, true, none⟩
    | .fail _ => ⟨false, model_dir, true, none⟩
    | .exc _ => ⟨false, model_dir, true, none⟩

/-- `convert_onnx_to_mnn(model_dir, use_fp16, onnx_filename, mnn_filename)`:
precondition check on the input file, idempotence check on the output file,
then the `mnnconvert` invocation (`use_fp16` only adds a flag to the command
line and does not affect control flow). -/
def convert_onnx_to_mnn (env : Env) (model_dir : Dir) (use_fp16 : Bool)
    (onnx_filename : String) (mnn_filename : String) : StageResult :=
  if !(fileExists model_dir onnx_filename) then
    ⟨false, model_dir, false, none⟩
  else if fileExists model_dir mnn_filename then
    ⟨true, model_dir, false, none⟩
  else
    match env.mnnconvert with
    | .ok => ⟨true, { model_dir with files := model_dir.files ++ [mnn_filename] }, true, none⟩
    | .fail _ => ⟨false, model_dir, true, none⟩
    | .exc _ => ⟨false, model_dir, true, none⟩

/-- Python truthiness of a YAML value, for `if not character_dict`. -/
def yamlTruthy : Yaml → Bool
  | .null => false
  | .bool b => b
  | .int n => n != 0
  | .str s => !s.isEmpty
  | .list items => !items.isEmpty
  | .map entries => !entries.isEmpty

/-- Key lookup in a parsed YAML mapping (first binding wins, as in a Python
dict built by the YAML loader). -/
def yamlGet (entries : List (String × Yaml)) (k : String) : Option Yaml :=
  (entries.find? (fun p => p.1 == k)).map (fun p => p.2)

/-- The `for item in data['PostProcess']` loop: the first element that is a
dict containing the key `character_dict` supplies the value, then `break`. -/
def firstCharacterDict : List Yaml → Option Yaml
  | [] => none
  | .map entries :: rest =>
    match yamlGet entries "character_dict" with
    | some v => some v
    | none => firstCharacterDict rest
  | _ :: rest => firstCharacterDict rest

/-- The value bound to `character_dict` after the lookup block of
`extract_character_dict`. `none` covers both `character_dict` remaining
`None` and a lookup on a non-dict top level raising (Python lines 131-138:
a raise is caught by the surrounding `except` and, like `None`, the stage
returns `False` with nothing written, so the two are folded together). -/
def findCharacterDict (data : Yaml) : Option Yaml :=
  match data with
  | .map entries =>
    match yamlGet entries "PostProcess" with
    | some (.map pp) => yamlGet pp "character_dict"
    | some (.list items) => firstCharacterDict items
    | _ => none
  | _ => none

/-- `str(char)` for a scalar YAML value. The exact Python `str()` text of a
nested container entry is irrelevant to every property below (the pipeline
never inspects it), so containers map to a fixed marker. -/
def pyToString : Yaml → String
  | .null => "None"
  | .bool b => if b then "True" else "False"
  | .int n => toString n
  | .str s => s
  | .list _ => "<list>"
  | .map _ => "<dict>"

/-- One line of `ppocr_keys.txt`: `str(char) if char is not None else ''`. -/
def entryLine : Yaml → String
  | .null => ""
  | c => pyToString c

/-- `for char in character_dict`: what Python iteration yields on each YAML
shape. A list yields its items, a string its characters, a dict its keys; an
int or bool raises `TypeError` (caught by the stage), modelled as `none`. -/
def iterEntries : Yaml → Option (List Yaml)
  | .list items => some items
  | .str s => some (s.toList.map (fun c => Yaml.str (String.singleton c)))
  | .map entries => some (entries.map (fun p => Yaml.str p.1))
  | _ => none

/-- `extract_character_dict(model_dir)`: precondition check on
`inference.yml`, idempotence check on `ppocr_keys.txt`, then parse, locate
`character_dict`, reject a falsy value, and write one entry per line. -/
def extract_character_dict (model_dir : Dir) : StageResult :=
  if !(fileExists model_dir "inference.yml") then
    ⟨false, model_dir, false, none⟩
  else if fileExists model_dir "ppocr_keys.txt" then
    ⟨true, model_dir, false, none⟩
  else
    match model_dir.yml with
    | none => ⟨false, model_dir, false, none⟩
    | some data =>
      match findCharacterDict data with
      | none => ⟨false, model_dir, false, none⟩
      | some cd =>
        if !(yamlTruthy cd) then
          ⟨false, model_dir, false, none⟩
        else
          match iterEntries cd with
          | none => ⟨false, model_dir, false, none⟩
          | some entries =>
            ⟨true, { model_dir with files := model_dir.files ++ ["ppocr_keys.txt"] },
              false, some (entries.map entryLine)⟩

/-- The `InputFormat` enum of the script. -/
inductive InputFormat where
  | PADDLE
  | ONNX
  | AUTO
  deriving DecidableEq, Repr

/-- `detect_input_format(model_dir)`: Paddle signal (both required files)
takes precedence, then any `*.onnx` file, else `None`. -/
def detect_input_format (model_dir : Dir) : Option InputFormat :=
  let has_paddle := fileExists model_dir "inference.json" &&
    fileExists model_dir "inference.pdiparams"
  let has_onnx := !(globOnnx model_dir).isEmpty
  if has_paddle then some .PADDLE
  else if has_onnx then some .ONNX
  else none

/-- Index of the last character equal to a dot, if any. -/
def lastDotIdx (cs : List Char) : Option Nat :=
  match cs.reverse.findIdx? (fun c => c == '.') with
  | some j => some (cs.length - 1 - j)
  | none => none

/-- `Path(name).stem`: the name without its suffix, where the suffix starts
at the last dot only if that dot is neither the first nor the last
character (pathlib semantics). -/
def stem (name : String) : String :=
  let cs := name.toList
  match lastDotIdx cs with
  | some i => if 0 < i && i + 1 < cs.length then String.mk (cs.take i) else name
  | none => name

/-- The Python result dict of `convert_model`, in insertion order. -/
abbrev ResultDict := List (String × Bool)

/-- `results.get(k)` / `results[k]` as an optional lookup. -/
def getKey (r : ResultDict) (k : String) : Option Bool :=
  (r.find? (fun p => p.1 == k)).map (fun p => p.2)

/-- `results[k] = v`: update the binding in place if the key is present,
append it otherwise (Python dict assignment). -/
def setKey (r : ResultDict) (k : String) (v : Bool) : ResultDict :=
  if r.any (fun p => p.1 == k) then
    r.map (fun p => if p.1 == k then (k, v) else p)
  else
    r ++ [(k, v)]

/-- `any([results['paddle_to_onnx'], results['onnx_to_mnn'],
results['extract_dict']])` (line 223 of the script). -/
def anySuccess (r : ResultDict) : Bool :=
  (getKey r "paddle_to_onnx").getD false || (getKey r "onnx_to_mnn").getD false ||
    (getKey r "extract_dict").getD false

/-- Instrumentation of one `convert_model` run: which stage functions were
called, which external tools were invoked, and (in direct-ONNX mode) the
input and output filenames handed to the ONNX-to-MNN stage. -/
structure Trace where
  paddleCalled : Bool
  mnnCalled : Bool
  dictCalled : Bool
  paddleInvoked : Bool
  mnnInvoked : Bool
  onnxInput : Option String
  mnnOutput : Option String
  deriving DecidableEq, Repr

/-- The trace of a run that called no stage. -/
def emptyTrace : Trace :=
  ⟨false, false, false, false, false, none, none⟩

/-- What one `convert_model` call produces: the Python result dict, the
directory after all side effects, and the instrumentation trace. -/
structure ModelOutcome where
  results : ResultDict
  dir : Dir
  trace : Trace

/-- The initial result dict of `convert_model` (lines 191-196). -/
def initResults : ResultDict :=
  [("paddle_to_onnx", false), ("onnx_to_mnn", false), ("extract_dict", false),
    ("success", false)]

/-- `convert_model(model_dir, use_fp16, input_format)` (lines 175-224):
resolve AUTO by detection (returning a dict holding only `success: False`
when detection fails), then run the stages of the resolved format, then set
`success` to the disjunction of the three stage flags. When the resolved
format is PADDLE, the ONNX-to-MNN stage runs only if Paddle-to-ONNX
succeeded, and dictionary extraction runs unconditionally. When it is ONNX,
only ONNX-to-MNN runs, on the first `*.onnx` file discovered, writing to the
file named by that input's stem with the `.mnn` extension; with no `*.onnx`
file no stage runs. (The AUTO arm of the inner match is unreachable: the
resolved format is never AUTO; Python's if/elif would fall through there, so
it returns the initial dict with `success` recomputed, which is what falling
through does.) -/
def convert_model (env : Env) (model_dir : Dir) (use_fp16 : Bool)
    (input_format : InputFormat) : ModelOutcome :=
  match (if input_format = InputFormat.AUTO then detect_input_format model_dir
         else some input_format) with
  | none => ⟨[("success", false)], model_dir, emptyTrace⟩
  | some fmt =>
    match fmt with
    | .PADDLE =>
      let r1 := convert_paddle_to_onnx env model_dir
      let res1 := setKey initResults "paddle_to_onnx" r1.succeeded
      if r1.succeeded then
        let r2 := convert_onnx_to_mnn env r1.dir use_fp16 "model.onnx" "model.mnn"
        let res2 := setKey res1 "onnx_to_mnn" r2.succeeded
        let r3 := extract_character_dict r2.dir
        let res3 := setKey res2 "extract_dict" r3.succeeded
        ⟨setKey res3 "success" (anySuccess res3), r3.dir,
          ⟨true, true, true, r1.invoked, r2.invoked, none, none⟩⟩
      else
        let r3 := extract_character_dict r1.dir
        let res3 := setKey res1 "extract_dict" r3.succeeded
        ⟨setKey res3 "success" (anySuccess res3), r3.dir,
          ⟨true, false, true, r1.invoked, false, none, none⟩⟩
    | .ONNX =>
      match globOnnx model_dir with
      | [] =>
        ⟨setKey initResults "success" (anySuccess initResults), model_dir, emptyTrace⟩
      | onnx_file :: _ =>
        let mnn_file := stem onnx_file ++ ".mnn"
        let r2 := convert_onnx_to_mnn env model_dir use_fp16 onnx_file mnn_file
        let res2 := setKey initResults "onnx_to_mnn" r2.succeeded
        ⟨setKey res2 "success" (anySuccess res2), r2.dir,
          ⟨false, true, false, false, r2.invoked, some onnx_file, some mnn_file⟩⟩
    | .AUTO =>
      ⟨setKey initResults "success" (anySuccess initResults), model_dir, emptyTrace⟩

/-- Outcome of one per-model body in the batch loop of `main`: either the
result dict of `convert_model`, or an exception escaping it. -/
abbrev ProcOutcome := Except String ResultDict

/-- The mutable batch counters of `main`. -/
structure BatchState where
  success_count : Nat
  failed_models : List String
  deriving DecidableEq, Repr

/-- One iteration of the batch loop (lines 320-331): the `try` body counts
the model as a success when `results.get('success', False)` is truthy and as
a failure otherwise; the `except` clause records the model as failed. -/
def processOne (proc : String → ProcOutcome) (st : BatchState) (m : String) : BatchState :=
  match proc m with
  | .ok results =>
    if (getKey results "success").getD false then
      { st with success_count := st.success_count + 1 }
    else
      { st with failed_models := st.failed_models ++ [m] }
  | .error _ => { st with failed_models := st.failed_models ++ [m] }

/-- The whole batch loop, starting from zero counters, over a given
iteration order. -/
def processModels (proc : String → ProcOutcome) (dirs : List String) : BatchState :=
  dirs.foldl (processOne proc) ⟨0, []⟩

/-- Stable insertion of a name into a sorted list. -/
def insertSorted (x : String) : List String → List String
  | [] => [x]
  | y :: ys => if x ≤ y then x :: y :: ys else y :: insertSorted x ys

/-- `sorted(model_dirs)`: stable ascending sort by name. -/
def sortNames (l : List String) : List String :=
  l.foldr insertSorted []

/-- The batch phase of `main`: iterate the sorted directory list. -/
def runBatch (proc : String → ProcOutcome) (dirs : List String) : BatchState :=
  processModels proc (sortNames dirs)

/-- C5: format detection returns PADDLE whenever both Paddle required files
are present (in particular when `*.onnx` files are also present: PADDLE takes
precedence); it returns ONNX exactly when the Paddle signal is absent and
some `*.onnx` file exists; and it returns no format when neither signal is
present. -/
theorem detect_precedence (d : Dir) :
    (fileExists d "inference.json" = true → fileExists d "inference.pdiparams" = true →
      detect_input_format d = some InputFormat.PADDLE) ∧
    ((fileExists d "inference.json" && fileExists d "inference.pdiparams") = false →
      (globOnnx d).isEmpty = false → detect_input_format d = some InputFormat.ONNX) ∧
    ((fileExists d "inference.json" && fileExists d "inference.pdiparams") = false →
      (globOnnx d).isEmpty = true → detect_input_format d = none) := by
  refine ⟨?_, ?_, ?_⟩ <;> intro h1 h2 <;> simp [detect_input_format, h1, h2]

/-- C5 witness: a directory holding both Paddle files and an `.onnx` file is
detected as PADDLE. -/
theorem detect_precedence_witness :
    fileExists ⟨["inference.json", "inference.pdiparams", "m.onnx"], none⟩ "inference.json" = true ∧
    fileExists ⟨["inference.json", "inference.pdiparams", "m.onnx"], none⟩ "inference.pdiparams" = true ∧
    detect_input_format ⟨["inference.json", "inference.pdiparams", "m.onnx"], none⟩ =
      some InputFormat.PADDLE :=
  ⟨by decide, by decide,
    (detect_precedence ⟨["inference.json", "inference.pdiparams", "m.onnx"], none⟩).1
      (by decide) (by decide)⟩

/-- C3: for each of the three stages, when the stage's required input files
exist and its declared output file already exists, the stage returns `True`
with the directory unchanged, no external process invoked and nothing
written. -/
theorem stage_idempotence (env : Env) (d : Dir) (fp16 : Bool)
    (onnx_filename mnn_filename : String) :
    (fileExists d "inference.json" = true → fileExists d "inference.pdiparams" = true →
      fileExists d "model.onnx" = true →
      convert_paddle_to_onnx env d = ⟨true, d, false, none⟩) ∧
    (fileExists d onnx_filename = true → fileExists d mnn_filename = true →
      convert_onnx_to_mnn env d fp16 onnx_filename mnn_filename = ⟨true, d, false, none⟩) ∧
    (fileExists d "inference.yml" = true → fileExists d "ppocr_keys.txt" = true →
      extract_character_dict d = ⟨true, d, false, none⟩) := by
  refine ⟨?_, ?_, ?_⟩
  · intro h1 h2 h3
    simp [convert_paddle_to_onnx, h1, h2, h3]
  · intro h1 h2
    simp [convert_onnx_to_mnn, h1, h2]
  · intro h1 h2
    simp [extract_character_dict, h1, h2]

/-- C3 witness: in a directory already holding every input and output
artifact, all three stages succeed with no invocation, even though both
external tools would raise if invoked. -/
theorem stage_idempotence_witness :
    convert_paddle_to_onnx ⟨ToolOutcome.exc "x", ToolOutcome.exc "y"⟩
        ⟨["inference.json", "inference.pdiparams", "model.onnx", "inference.yml",
          "ppocr_keys.txt", "in.onnx", "out.mnn"], none⟩ =
      ⟨true, ⟨["inference.json", "inference.pdiparams", "model.onnx", "inference.yml",
        "ppocr_keys.txt", "in.onnx", "out.mnn"], none⟩, false, none⟩ ∧
    convert_onnx_to_mnn ⟨ToolOutcome.exc "x", ToolOutcome.exc "y"⟩
        ⟨["inference.json", "inference.pdiparams", "model.onnx", "inference.yml",
          "ppocr_keys.txt", "in.onnx", "out.mnn"], none⟩ true "in.onnx" "out.mnn" =
      ⟨true, ⟨["inference.json", "inference.pdiparams", "model.onnx", "inference.yml",
        "ppocr_keys.txt", "in.onnx", "out.mnn"], none⟩, false, none⟩ ∧
    extract_character_dict
        ⟨["inference.json", "inference.pdiparams", "model.onnx", "inference.yml",
          "ppocr_keys.txt", "in.onnx", "out.mnn"], none⟩ =
      ⟨true, ⟨["inference.json", "inference.pdiparams", "model.onnx", "inference.yml",
        "ppocr_keys.txt", "in.onnx", "out.mnn"], none⟩, false, none⟩ :=
  ⟨(stage_idempotence ⟨ToolOutcome.exc "x", ToolOutcome.exc "y"⟩
      ⟨["inference.json", "inference.pdiparams", "model.onnx", "inference.yml",
        "ppocr_keys.txt", "in.onnx", "out.mnn"], none⟩ true "in.onnx" "out.mnn").1
      (by decide) (by decide) (by decide),
   (stage_idempotence ⟨ToolOutcome.exc "x", ToolOutcome.exc "y"⟩
      ⟨["inference.json", "inference.pdiparams", "model.onnx", "inference.yml",
        "ppocr_keys.txt", "in.onnx", "out.mnn"], none⟩ true "in.onnx" "out.mnn").2.1
      (by decide) (by decide),
   (stage_idempotence ⟨ToolOutcome.exc "x", ToolOutcome.exc "y"⟩
      ⟨["inference.json", "inference.pdiparams", "model.onnx", "inference.yml",
        "ppocr_keys.txt", "in.onnx", "out.mnn"], none⟩ true "in.onnx" "out.mnn").2.2
      (by decide) (by decide)⟩

/-- C10: when `inference.yml` exists, the output file does not, the file
parses, and `character_dict` is located with a falsy value (empty list,
empty string, ...), the dictionary stage fails with nothing written and the
directory unchanged. -/
theorem falsy_dict_fails (files : List String) (data v : Yaml)
    (h1 : files.contains "inference.yml" = true)
    (h2 : files.contains "ppocr_keys.txt" = false)
    (hfind : findCharacterDict data = some v)
    (hfalsy : yamlTruthy v = false) :
    extract_character_dict ⟨files, some data⟩ = ⟨false, ⟨files, some data⟩, false, none⟩ := by
  have h1m : "inference.yml" ∈ files := by simpa using h1
  have h2m : "ppocr_keys.txt" ∉ files := by simpa using h2
  simp [extract_character_dict, fileExists, h1m, h2m, hfind, hfalsy]

/-- C10 witness: a located but empty `character_dict` list fails with no
output written. -/
theorem falsy_dict_fails_witness :
    findCharacterDict (Yaml.map [("PostProcess", Yaml.map [("character_dict", Yaml.list [])])]) =
      some (Yaml.list []) ∧
    yamlTruthy (Yaml.list []) = false ∧
    extract_character_dict
        ⟨["inference.yml"],
          some (Yaml.map [("PostProcess", Yaml.map [("character_dict", Yaml.list [])])])⟩ =
      ⟨false, ⟨["inference.yml"],
        some (Yaml.map [("PostProcess", Yaml.map [("character_dict", Yaml.list [])])])⟩,
        false, none⟩ :=
  ⟨rfl, rfl,
    falsy_dict_fails ["inference.yml"]
      (Yaml.map [("PostProcess", Yaml.map [("character_dict", Yaml.list [])])])
      (Yaml.list []) (by decide) (by decide) rfl rfl⟩

/-- C8: with `inference.yml` present and the output file absent, a parsed
config whose `PostProcess` is a single mapping holding
`character_dict: [a, b, c]`, and one whose `PostProcess` is a list holding
one element with that field, both succeed and write the three lines `a`,
`b`, `c`; a null entry is written as an empty line. -/
theorem dict_shape_tolerance (a b c : String) (files : List String)
    (h1 : files.contains "inference.yml" = true)
    (h2 : files.contains "ppocr_keys.txt" = false) :
    extract_character_dict ⟨files,
        some (Yaml.map [("PostProcess",
          Yaml.map [("character_dict", Yaml.list [Yaml.str a, Yaml.str b, Yaml.str c])])])⟩ =
      ⟨true, ⟨files ++ ["ppocr_keys.txt"],
        some (Yaml.map [("PostProcess",
          Yaml.map [("character_dict", Yaml.list [Yaml.str a, Yaml.str b, Yaml.str c])])])⟩,
        false, some [a, b, c]⟩ ∧
    extract_character_dict ⟨files,
        some (Yaml.map [("PostProcess", Yaml.list
          [Yaml.map [("character_dict", Yaml.list [Yaml.str a, Yaml.str b, Yaml.str c])]])])⟩ =
      ⟨true, ⟨files ++ ["ppocr_keys.txt"],
        some (Yaml.map [("PostProcess", Yaml.list
          [Yaml.map [("character_dict", Yaml.list [Yaml.str a, Yaml.str b, Yaml.str c])]])])⟩,
        false, some [a, b, c]⟩ ∧
    extract_character_dict ⟨files,
        some (Yaml.map [("PostProcess",
          Yaml.map [("character_dict", Yaml.list [Yaml.str a, Yaml.null, Yaml.str c])])])⟩ =
      ⟨true, ⟨files ++ ["ppocr_keys.txt"],
        some (Yaml.map [("PostProcess",
          Yaml.map [("character_dict", Yaml.list [Yaml.str a, Yaml.null, Yaml.str c])])])⟩,
        false, some [a, "", c]⟩ := by
  have h1m : "inference.yml" ∈ files := by simpa using h1
  have h2m : "ppocr_keys.txt" ∉ files := by simpa using h2
  refine ⟨?_, ?_, ?_⟩ <;>
    simp [extract_character_dict, fileExists, h1m, h2m, findCharacterDict, yamlGet,
      firstCharacterDict, yamlTruthy, iterEntries, entryLine, pyToString]

/-- C8 witness: both config shapes on the entries `a`, `b`, `c` write the
three lines `a`, `b`, `c`. -/
theorem dict_shape_tolerance_witness :
    (["inference.yml"] : List String).contains "inference.yml" = true ∧
    (["inference.yml"] : List String).contains "ppocr_keys.txt" = false ∧
    (extract_character_dict ⟨["inference.yml"],
        some (Yaml.map [("PostProcess",
          Yaml.map [("character_dict",
            Yaml.list [Yaml.str "a", Yaml.str "b", Yaml.str "c"])])])⟩).written =
      some ["a", "b", "c"] ∧
    (extract_character_dict ⟨["inference.yml"],
        some (Yaml.map [("PostProcess", Yaml.list
          [Yaml.map [("character_dict",
            Yaml.list [Yaml.str "a", Yaml.str "b", Yaml.str "c"])]])])⟩).written =
      some ["a", "b", "c"] :=
  ⟨by decide, by decide,
    by rw [(dict_shape_tolerance "a" "b" "c" ["inference.yml"] (by decide) (by decide)).1],
    by rw [(dict_shape_tolerance "a" "b" "c" ["inference.yml"] (by decide) (by decide)).2.1]⟩

/-- C1: in PADDLE mode, when Paddle-to-ONNX does not succeed, the
ONNX-to-MNN stage is neither called nor its tool invoked and its recorded
outcome stays `False`; dictionary extraction is called unconditionally (so
in particular whenever `inference.yml` exists) and its recorded outcome is
exactly what running the stage yields; and AUTO mode resolving to PADDLE
behaves identically to explicit PADDLE mode. -/
theorem paddle_short_circuit (env : Env) (d : Dir) (fp16 : Bool) :
    ((convert_paddle_to_onnx env d).succeeded = false →
      getKey (convert_model env d fp16 InputFormat.PADDLE).results "onnx_to_mnn" = some false ∧
      (convert_model env d fp16 InputFormat.PADDLE).trace.mnnCalled = false ∧
      (convert_model env d fp16 InputFormat.PADDLE).trace.mnnInvoked = false) ∧
    (convert_model env d fp16 InputFormat.PADDLE).trace.dictCalled = true ∧
    ((convert_paddle_to_onnx env d).succeeded = false →
      getKey (convert_model env d fp16 InputFormat.PADDLE).results "extract_dict" =
        some (extract_character_dict (convert_paddle_to_onnx env d).dir).succeeded) ∧
    (detect_input_format d = some InputFormat.PADDLE →
      convert_model env d fp16 InputFormat.AUTO = convert_model env d fp16 InputFormat.PADDLE) := by
  refine ⟨fun h => ?_, ?_, fun h => ?_, fun hdet => ?_⟩
  · simp [convert_model, h, getKey, setKey, initResults]
  · by_cases h : (convert_paddle_to_onnx env d).succeeded <;>
      simp [convert_model, h]
  · simp [convert_model, h, getKey, setKey, initResults]
  · simp [convert_model, hdet]

/-- C1 witness: with both Paddle inputs present, the exporter failing, and an
`inference.yml` holding a dictionary, ONNX-to-MNN stays not-attempted while
dictionary extraction still runs (and here succeeds). -/
theorem paddle_short_circuit_witness :
    (convert_paddle_to_onnx ⟨ToolOutcome.fail "boom", ToolOutcome.ok⟩
      ⟨["inference.json", "inference.pdiparams", "inference.yml"],
        some (Yaml.map [("PostProcess",
          Yaml.map [("character_dict", Yaml.list [Yaml.str "a"])])])⟩).succeeded = false ∧
    getKey (convert_model ⟨ToolOutcome.fail "boom", ToolOutcome.ok⟩
      ⟨["inference.json", "inference.pdiparams", "inference.yml"],
        some (Yaml.map [("PostProcess",
          Yaml.map [("character_dict", Yaml.list [Yaml.str "a"])])])⟩
      true InputFormat.PADDLE).results "onnx_to_mnn" = some false ∧
    (convert_model ⟨ToolOutcome.fail "boom", ToolOutcome.ok⟩
      ⟨["inference.json", "inference.pdiparams", "inference.yml"],
        some (Yaml.map [("PostProcess",
          Yaml.map [("character_dict", Yaml.list [Yaml.str "a"])])])⟩
      true InputFormat.PADDLE).trace.mnnCalled = false ∧
    (convert_model ⟨ToolOutcome.fail "boom", ToolOutcome.ok⟩
      ⟨["inference.json", "inference.pdiparams", "inference.yml"],
        some (Yaml.map [("PostProcess",
          Yaml.map [("character_dict", Yaml.list [Yaml.str "a"])])])⟩
      true InputFormat.PADDLE).trace.dictCalled = true ∧
    getKey (convert_model ⟨ToolOutcome.fail "boom", ToolOutcome.ok⟩
      ⟨["inference.json", "inference.pdiparams", "inference.yml"],
        some (Yaml.map [("PostProcess",
          Yaml.map [("character_dict", Yaml.list [Yaml.str "a"])])])⟩
      true InputFormat.PADDLE).results "extract_dict" = some true :=
  ⟨rfl,
    ((paddle_short_circuit ⟨ToolOutcome.fail "boom", ToolOutcome.ok⟩
      ⟨["inference.json", "inference.pdiparams", "inference.yml"],
        some (Yaml.map [("PostProcess",
          Yaml.map [("character_dict", Yaml.list [Yaml.str "a"])])])⟩ true).1 rfl).1,
    ((paddle_short_circuit ⟨ToolOutcome.fail "boom", ToolOutcome.ok⟩
      ⟨["inference.json", "inference.pdiparams", "inference.yml"],
        some (Yaml.map [("PostProcess",
          Yaml.map [("character_dict", Yaml.list [Yaml.str "a"])])])⟩ true).1 rfl).2.1,
    (paddle_short_circuit ⟨ToolOutcome.fail "boom", ToolOutcome.ok⟩
      ⟨["inference.json", "inference.pdiparams", "inference.yml"],
        some (Yaml.map [("PostProcess",
          Yaml.map [("character_dict", Yaml.list [Yaml.str "a"])])])⟩ true).2.1,
    by
      rw [(paddle_short_circuit ⟨ToolOutcome.fail "boom", ToolOutcome.ok⟩
        ⟨["inference.json", "inference.pdiparams", "inference.yml"],
          some (Yaml.map [("PostProcess",
            Yaml.map [("character_dict", Yaml.list [Yaml.str "a"])])])⟩ true).2.2.1 rfl]
      rfl⟩

/-- C2: on every path of `convert_model` the recorded `success` flag equals
the disjunction of the three stage flags (so it is `True` iff some attempted
stage succeeded, unattempted stages being recorded `False`); and in the
concrete scenario where only dictionary extraction succeeds, the overall
result is a success. -/
theorem lenient_success :
    (∀ (env : Env) (d : Dir) (fp16 : Bool) (fmt : InputFormat),
      getKey (convert_model env d fp16 fmt).results "success" =
        some (anySuccess (convert_model env d fp16 fmt).results)) ∧
    (convert_model ⟨ToolOutcome.fail "e1", ToolOutcome.fail "e2"⟩
      ⟨["inference.yml"],
        some (Yaml.map [("PostProcess",
          Yaml.map [("character_dict", Yaml.list [Yaml.str "a"])])])⟩
      true InputFormat.PADDLE).results =
      [("paddle_to_onnx", false), ("onnx_to_mnn", false), ("extract_dict", true),
        ("success", true)] := by
  have hpaddle : ∀ (env : Env) (d : Dir) (fp16 : Bool),
      getKey (convert_model env d fp16 InputFormat.PADDLE).results "success" =
        some (anySuccess (convert_model env d fp16 InputFormat.PADDLE).results) := by
    intro env d fp16
    cases hs : (convert_paddle_to_onnx env d).succeeded <;>
      simp [convert_model, hs, getKey, setKey, anySuccess, initResults]
  have honnx : ∀ (env : Env) (d : Dir) (fp16 : Bool),
      getKey (convert_model env d fp16 InputFormat.ONNX).results "success" =
        some (anySuccess (convert_model env d fp16 InputFormat.ONNX).results) := by
    intro env d fp16
    cases hg : globOnnx d <;>
      simp [convert_model, hg, getKey, setKey, anySuccess, initResults]
  refine ⟨fun env d fp16 fmt => ?_, by decide⟩
  cases fmt with
  | PADDLE => exact hpaddle env d fp16
  | ONNX => exact honnx env d fp16
  | AUTO =>
    cases hd : detect_input_format d with
    | none => simp [convert_model, hd, getKey, anySuccess]
    | some fmt2 =>
      cases fmt2 with
      | PADDLE =>
        have := hpaddle env d fp16
        simpa [convert_model, hd] using this
      | ONNX =>
        have := honnx env d fp16
        simpa [convert_model, hd] using this
      | AUTO =>
        simp [convert_model, hd, getKey, setKey, anySuccess, initResults]

/-- C4: when the requested format is AUTO and detection finds nothing, the
pipeline returns only `success: False`, leaves the directory untouched, and
calls no stage. -/
theorem undetectable_format (env : Env) (d : Dir) (fp16 : Bool)
    (h : detect_input_format d = none) :
    convert_model env d fp16 InputFormat.AUTO = ⟨[("success", false)], d, emptyTrace⟩ ∧
    getKey (convert_model env d fp16 InputFormat.AUTO).results "success" = some false ∧
    (convert_model env d fp16 InputFormat.AUTO).trace.paddleCalled = false ∧
    (convert_model env d fp16 InputFormat.AUTO).trace.mnnCalled = false ∧
    (convert_model env d fp16 InputFormat.AUTO).trace.dictCalled = false := by
  have hcm : convert_model env d fp16 InputFormat.AUTO = ⟨[("success", false)], d, emptyTrace⟩ := by
    simp [convert_model, h]
  exact ⟨hcm, by rw [hcm]; rfl, by rw [hcm]; rfl, by rw [hcm]; rfl, by rw [hcm]; rfl⟩

/-- C4 witness: an empty directory is undetectable and yields the bare
failure result with no stage called. -/
theorem undetectable_format_witness :
    detect_input_format ⟨[], none⟩ = none ∧
    convert_model ⟨ToolOutcome.ok, ToolOutcome.ok⟩ ⟨[], none⟩ true InputFormat.AUTO =
      ⟨[("success", false)], ⟨[], none⟩, emptyTrace⟩ :=
  ⟨rfl, (undetectable_format ⟨ToolOutcome.ok, ToolOutcome.ok⟩ ⟨[], none⟩ true rfl).1⟩

/-- C7: in direct-ONNX mode with at least one `*.onnx` file, the stage is
handed the first discovered `*.onnx` file as input and the file named by its
stem with the `.mnn` extension as output, its recorded outcome is exactly
that stage run, and concretely `foo.onnx` yields `foo.mnn`. -/
theorem direct_onnx_naming (env : Env) (d : Dir) (fp16 : Bool) (f : String)
    (rest : List String) (h : globOnnx d = f :: rest) :
    (convert_model env d fp16 InputFormat.ONNX).trace.onnxInput = some f ∧
    (convert_model env d fp16 InputFormat.ONNX).trace.mnnOutput =
      some (stem f ++ ".mnn") ∧
    getKey (convert_model env d fp16 InputFormat.ONNX).results "onnx_to_mnn" =
      some (convert_onnx_to_mnn env d fp16 f (stem f ++ ".mnn")).succeeded ∧
    stem "foo.onnx" ++ ".mnn" = "foo.mnn" := by
  refine ⟨?_, ?_, ?_, by decide⟩ <;> simp [convert_model, h, getKey, setKey, initResults]

/-- C7 witness: with discovered files `foo.onnx` then `bar.onnx`, the stage
reads `foo.onnx` and writes `foo.mnn`. -/
theorem direct_onnx_naming_witness :
    globOnnx ⟨["foo.onnx", "bar.onnx"], none⟩ = ["foo.onnx", "bar.onnx"] ∧
    (convert_model ⟨ToolOutcome.ok, ToolOutcome.ok⟩ ⟨["foo.onnx", "bar.onnx"], none⟩
      true InputFormat.ONNX).trace.onnxInput = some "foo.onnx" ∧
    (convert_model ⟨ToolOutcome.ok, ToolOutcome.ok⟩ ⟨["foo.onnx", "bar.onnx"], none⟩
      true InputFormat.ONNX).trace.mnnOutput = some ("foo" ++ ".mnn") :=
  ⟨by decide,
    (direct_onnx_naming ⟨ToolOutcome.ok, ToolOutcome.ok⟩ ⟨["foo.onnx", "bar.onnx"], none⟩
      true "foo.onnx" ["bar.onnx"] (by decide)).1,
    (direct_onnx_naming ⟨ToolOutcome.ok, ToolOutcome.ok⟩ ⟨["foo.onnx", "bar.onnx"], none⟩
      true "foo.onnx" ["bar.onnx"] (by decide)).2.1⟩

/-- Whether the result dict carries a binding for every stage name and for
the success flag. -/
def stageKeysPresent (r : ResultDict) : Bool :=
  (getKey r "paddle_to_onnx").isSome && (getKey r "onnx_to_mnn").isSome &&
    (getKey r "extract_dict").isSome && (getKey r "success").isSome

/-- Detection never answers the AUTO sentinel. -/
theorem detect_ne_auto (d : Dir) : detect_input_format d ≠ some InputFormat.AUTO := by
  simp only [detect_input_format]
  split_ifs <;> simp

/-- The PADDLE pipeline always records all four keys. -/
theorem keys_present_paddle (env : Env) (d : Dir) (fp16 : Bool) :
    stageKeysPresent (convert_model env d fp16 InputFormat.PADDLE).results = true := by
  cases hs : (convert_paddle_to_onnx env d).succeeded <;>
    simp [convert_model, hs, stageKeysPresent, getKey, setKey, initResults]

/-- The ONNX pipeline always records all four keys. -/
theorem keys_present_onnx (env : Env) (d : Dir) (fp16 : Bool) :
    stageKeysPresent (convert_model env d fp16 InputFormat.ONNX).results = true := by
  cases hg : globOnnx d <;>
    simp [convert_model, hg, stageKeysPresent, getKey, setKey, initResults]

/-- AUTO mode that detects a concrete format behaves exactly as that format
requested explicitly. -/
theorem auto_resolves (env : Env) (d : Dir) (fp16 : Bool) (fmt2 : InputFormat)
    (hd : detect_input_format d = some fmt2) (hne : fmt2 ≠ InputFormat.AUTO) :
    convert_model env d fp16 InputFormat.AUTO = convert_model env d fp16 fmt2 := by
  cases fmt2 with
  | PADDLE => simp [convert_model, hd]
  | ONNX => simp [convert_model, hd]
  | AUTO => exact absurd rfl hne

/-- C9 counterexample: on the undetectable-format exit path the result dict
holds only the success flag, so it does not contain an outcome entry for
every stage name. -/
theorem result_keys_counterexample :
    detect_input_format ⟨[], none⟩ = none ∧
    (convert_model ⟨ToolOutcome.ok, ToolOutcome.ok⟩ ⟨[], none⟩ true
      InputFormat.AUTO).results = [("success", false)] ∧
    getKey (convert_model ⟨ToolOutcome.ok, ToolOutcome.ok⟩ ⟨[], none⟩ true
      InputFormat.AUTO).results "paddle_to_onnx" = none ∧
    getKey (convert_model ⟨ToolOutcome.ok, ToolOutcome.ok⟩ ⟨[], none⟩ true
      InputFormat.AUTO).results "onnx_to_mnn" = none ∧
    getKey (convert_model ⟨ToolOutcome.ok, ToolOutcome.ok⟩ ⟨[], none⟩ true
      InputFormat.AUTO).results "extract_dict" = none := by
  decide

/-- C9 amended: on the undetectable-format path the result dict holds only
`success: False`; on every other exit path it carries a binding for all
three stage names and the success flag. -/
theorem result_keys_amended (env : Env) (d : Dir) (fp16 : Bool) (fmt : InputFormat) :
    ((fmt = InputFormat.AUTO ∧ detect_input_format d = none) →
      (convert_model env d fp16 fmt).results = [("success", false)]) ∧
    ((fmt = InputFormat.AUTO → detect_input_format d ≠ none) →
      stageKeysPresent (convert_model env d fp16 fmt).results = true) := by
  cases fmt with
  | PADDLE =>
    exact ⟨fun h => absurd h.1 (by decide), fun _ => keys_present_paddle env d fp16⟩
  | ONNX =>
    exact ⟨fun h => absurd h.1 (by decide), fun _ => keys_present_onnx env d fp16⟩
  | AUTO =>
    cases hd : detect_input_format d with
    | none =>
      exact ⟨fun _ => by simp [convert_model, hd], fun h2 => absurd rfl (h2 rfl)⟩
    | some fmt2 =>
      refine ⟨fun h => absurd h.2 (by simp), fun _ => ?_⟩
      cases fmt2 with
      | PADDLE =>
        rw [auto_resolves env d fp16 InputFormat.PADDLE hd (by decide)]
        exact keys_present_paddle env d fp16
      | ONNX =>
        rw [auto_resolves env d fp16 InputFormat.ONNX hd (by decide)]
        exact keys_present_onnx env d fp16
      | AUTO => exact absurd hd (detect_ne_auto d)

/-- C9 amended witness: an explicitly PADDLE run records all four keys, and
an undetectable AUTO run records only the success flag. -/
theorem result_keys_amended_witness :
    stageKeysPresent (convert_model ⟨ToolOutcome.ok, ToolOutcome.ok⟩ ⟨[], none⟩ true
      InputFormat.PADDLE).results = true ∧
    (convert_model ⟨ToolOutcome.ok, ToolOutcome.ok⟩ ⟨[], none⟩ true
      InputFormat.AUTO).results = [("success", false)] :=
  ⟨(result_keys_amended ⟨ToolOutcome.ok, ToolOutcome.ok⟩ ⟨[], none⟩ true
      InputFormat.PADDLE).2 (fun hx => absurd hx (by decide)),
   (result_keys_amended ⟨ToolOutcome.ok, ToolOutcome.ok⟩ ⟨[], none⟩ true
      InputFormat.AUTO).1 ⟨rfl, rfl⟩⟩

/-- One batch iteration decomposes into the zero-state iteration: the
counters it adds do not depend on the accumulated state. -/
theorem processOne_split (proc : String → ProcOutcome) (st : BatchState) (m : String) :
    processOne proc st m =
      ⟨st.success_count + (processOne proc ⟨0, []⟩ m).success_count,
        st.failed_models ++ (processOne proc ⟨0, []⟩ m).failed_models⟩ := by
  unfold processOne
  cases proc m with
  | ok results =>
    by_cases hk : (getKey results "success").getD false <;> simp [hk]
  | error e => simp

/-- The batch fold from any starting state decomposes into the starting
state plus the fold from the zero state. -/
theorem foldl_split (proc : String → ProcOutcome) (dirs : List String) :
    ∀ st : BatchState, dirs.foldl (processOne proc) st =
      ⟨st.success_count + (dirs.foldl (processOne proc) ⟨0, []⟩).success_count,
        st.failed_models ++ (dirs.foldl (processOne proc) ⟨0, []⟩).failed_models⟩ := by
  induction dirs with
  | nil => intro st; simp
  | cons m rest ih =>
    intro st
    simp only [List.foldl_cons]
    rw [ih (processOne proc st m), ih (processOne proc ⟨0, []⟩ m),
      processOne_split proc st m]
    simp [Nat.add_assoc, List.append_assoc]

/-- C6: if the body raises on model `m`, the batch loop records `m` as
failed and is otherwise the concatenation of the loop on the earlier models
and the loop on the later models: earlier results are unchanged, later
models are still processed, and the batch completes normally. -/
theorem batch_isolation (proc : String → ProcOutcome) (xs ys : List String)
    (m e : String) (h : proc m = Except.error e) :
    processModels proc (xs ++ m :: ys) =
      ⟨(processModels proc xs).success_count + (processModels proc ys).success_count,
        (processModels proc xs).failed_models ++ m :: (processModels proc ys).failed_models⟩ := by
  have hm : processOne proc (⟨0, []⟩ : BatchState) m = ⟨0, [m]⟩ := by
    simp [processOne, h]
  unfold processModels
  rw [List.foldl_append, List.foldl_cons,
    processOne_split proc (xs.foldl (processOne proc) ⟨0, []⟩) m, hm,
    foldl_split proc ys]
  simp

/-- C6 witness: with a body that raises exactly on `b`, the batch over
`a`, `b`, `c` counts the successes of `a` and `c` and records `b` failed. -/
theorem batch_isolation_witness :
    (fun m => if m == "b" then (Except.error "boom" : ProcOutcome)
      else Except.ok [("success", true)]) "b" = Except.error "boom" ∧
    processModels (fun m => if m == "b" then (Except.error "boom" : ProcOutcome)
        else Except.ok [("success", true)]) (["a"] ++ "b" :: ["c"]) =
      ⟨(processModels (fun m => if m == "b" then (Except.error "boom" : ProcOutcome)
          else Except.ok [("success", true)]) ["a"]).success_count +
        (processModels (fun m => if m == "b" then (Except.error "boom" : ProcOutcome)
          else Except.ok [("success", true)]) ["c"]).success_count,
        (processModels (fun m => if m == "b" then (Except.error "boom" : ProcOutcome)
          else Except.ok [("success", true)]) ["a"]).failed_models ++
          "b" :: (processModels (fun m => if m == "b" then (Except.error "boom" : ProcOutcome)
            else Except.ok [("success", true)]) ["c"]).failed_models⟩ :=
  ⟨rfl,
    batch_isolation (fun m => if m == "b" then (Except.error "boom" : ProcOutcome)
      else Except.ok [("success", true)]) ["a"] ["c"] "b" "boom" rfl⟩

end PaddleToMnn
